import Mathlib

/-!
Verification development for the LaserGaze geometric estimation core
(`EyeballDetector.py` and `AffineTransformer.py`).

The Python code is shallowly embedded as follows.

* 3D points are `ℚ × ℚ × ℚ` (exact arithmetic stands in for the floating
  point of the original; all the claims verified here are control-flow and
  exact-algebra properties, not rounding properties).
* `scipy.optimize.minimize` inside `EyeballDetector._solve_for_sphere` is an
  external numerical routine; its raw output (the four coordinates of
  `result.x` and the objective value `result.fun`) is passed to the embedded
  functions as an explicit oracle argument of type `MinimizeResult`.
  Everything the detector does *after* the call — the bounds check, the
  confidence formula `1 / (1 + result.fun)`, the truthiness test, the state
  updates — is embedded faithfully, so the theorems quantify over every
  possible solver behaviour.
* `cv2.estimateAffine3D` in `AffineTransformer.__init__` is likewise an
  external solver; its outcome (`retval`, `M`) is `Option` of a 3×4 matrix.
* Euclidean norm (`np.linalg.norm`) needs a square root, so the scale-factor
  computation is embedded over `ℝ` with `Real.sqrt`; the matrix/point part of
  `AffineTransformer` is embedded over an arbitrary field.
* Python timestamps are `ℤ` (milliseconds).
-/

namespace LaserGaze

/-- A 3D point, as a row of a numpy `(n, 3)` array. -/
abbrev Point3 : Type := ℚ × ℚ × ℚ

/-- Raw output of the `scipy.optimize.minimize` call in
`EyeballDetector._solve_for_sphere`: the optimiser's solution vector
`result.x = (x0, x1, x2, x3)` (candidate center and radius) and the final
objective value `result.fun` (the residual sum of squares). -/
structure MinimizeResult where
  x0 : ℚ
  x1 : ℚ
  x2 : ℚ
  x3 : ℚ
  fval : ℚ
deriving DecidableEq

/-- State of `EyeballDetector` (`EyeballDetector.py`, lines 45–56): the
configuration fields fixed at `__init__` together with the mutable detection
state. `points_for_eye_center` starts as `None` (here `none`). -/
structure EyeballDetector where
  eye_center : Point3
  eye_radius : ℚ
  min_confidence : ℚ
  reasonable_confidence : ℚ
  points_threshold : ℕ
  points_history_size : ℕ
  refresh_time_threshold : ℤ
  points_for_eye_center : Option (List Point3)
  current_confidence : ℚ
  center_detected : Bool
  search_completed : Bool
  last_update_time : ℤ
deriving DecidableEq

/-- `EyeballDetector.__init__` (lines 45–56). `now_ms` models
`int(time.time() * 1000)`. -/
def initDetector (initial_eye_center : Point3) (initial_eye_radius : ℚ)
    (min_confidence : ℚ) (reasonable_confidence : ℚ)
    (points_threshold : ℕ) (points_history_size : ℕ)
    (refresh_time_threshold : ℤ) (now_ms : ℤ) : EyeballDetector :=
  { eye_center := initial_eye_center
    eye_radius := initial_eye_radius
    min_confidence := min_confidence
    reasonable_confidence := reasonable_confidence
    points_threshold := points_threshold
    points_history_size := points_history_size
    refresh_time_threshold := refresh_time_threshold
    points_for_eye_center := none
    current_confidence := 0
    center_detected := false
    search_completed := false
    last_update_time := now_ms }

/-- Python slicing `l[-n:]`: the last `n` elements — except that `l[-0:]` is
the whole list, which the embedding reproduces. -/
def lastSlice {α : Type} (n : ℕ) (l : List α) : List α :=
  if n = 0 then l else l.drop (l.length - n)

/-- Lines 67–70 of `EyeballDetector.update`: append `new_points` to the
buffer.  When a buffer already exists, the concatenation is truncated with
`[-points_history_size:]`; on the very first call (buffer `None`) the new
points are stored verbatim, with no truncation. -/
def appendPoints (d : EyeballDetector) (new_points : List Point3) :
    EyeballDetector :=
  match d.points_for_eye_center with
  | some old =>
      let buf := lastSlice d.points_history_size (old ++ new_points)
      { d with points_for_eye_center := some buf }
  | none => { d with points_for_eye_center := some new_points }

/-- `EyeballDetector._solve_for_sphere` (lines 90–115) with the `minimize`
call abstracted into the `result` oracle: if the solved radius `result.x[3]`
lies within `radius_bounds`, return the center, the radius and the confidence
`1 / (1 + result.fun)`; otherwise return `(None, None, None)`. -/
def solveForSphere (radius_bounds : ℚ × ℚ) (result : MinimizeResult) :
    Option (Point3 × ℚ × ℚ) :=
  if radius_bounds.1 ≤ result.x3 ∧ result.x3 ≤ radius_bounds.2 then
    some ((result.x0, result.x1, result.x2), result.x3, 1 / (1 + result.fval))
  else
    none

/-- Default `radius_bounds = (0.015, 0.025)` of `_solve_for_sphere`. -/
def defaultRadiusBounds : ℚ × ℚ := (3 / 200, 1 / 40)

/-- Lines 73–84 of `EyeballDetector.update`: run the sphere fit and, when the
returned confidence is truthy (`None` and `0.0` are falsy in Python) and
strictly exceeds the current confidence, install the new center, radius,
confidence and `last_update_time`, raising `center_detected` and
`search_completed` when the respective thresholds are met. -/
def tryImprove (d : EyeballDetector) (timestamp_ms : ℤ)
    (mres : MinimizeResult) : EyeballDetector :=
  match solveForSphere defaultRadiusBounds mres with
  | some (center, radius, confidence) =>
      if confidence ≠ 0 ∧ d.current_confidence < confidence then
        { d with
            eye_center := center
            eye_radius := radius
            current_confidence := confidence
            last_update_time := timestamp_ms
            center_detected :=
              if d.min_confidence ≤ confidence then true else d.center_detected
            search_completed :=
              if d.reasonable_confidence ≤ confidence then true
              else d.search_completed }
      else d
  | none => d

/-- Lines 86–88 of `EyeballDetector.update`: clear `search_completed` when
`timestamp_ms - last_update_time > refresh_time_threshold`.  In the source
this statement sits *inside* the `if len(...) >= points_threshold and not
search_completed` block — `update` below reproduces that placement. -/
def staleCheck (d : EyeballDetector) (timestamp_ms : ℤ) : EyeballDetector :=
  if d.refresh_time_threshold < timestamp_ms - d.last_update_time then
    { d with search_completed := false }
  else d

/-- `EyeballDetector.update` (lines 58–88): append the new points, then — only
when the buffer has reached `points_threshold` and `search_completed` is still
false — attempt the fit and run the staleness check. -/
def update (d : EyeballDetector) (new_points : List Point3)
    (timestamp_ms : ℤ) (mres : MinimizeResult) : EyeballDetector :=
  if (appendPoints d new_points).points_threshold ≤
        ((appendPoints d new_points).points_for_eye_center.getD []).length ∧
      (appendPoints d new_points).search_completed = false then
    staleCheck (tryImprove (appendPoints d new_points) timestamp_ms mres)
      timestamp_ms
  else appendPoints d new_points

/-- `EyeballDetector.reset` (lines 117–125). `now_ms` models
`int(time.time() * 1000)`. -/
def reset (d : EyeballDetector) (now_ms : ℤ) : EyeballDetector :=
  { d with
      points_for_eye_center := none
      current_confidence := 0
      center_detected := false
      search_completed := false
      last_update_time := now_ms }

/-- One externally observable operation on an `EyeballDetector`. -/
inductive DetOp where
  | upd (new_points : List Point3) (timestamp_ms : ℤ) (mres : MinimizeResult)
  | rst (now_ms : ℤ)

/-- Apply one operation. -/
def applyOp (d : EyeballDetector) : DetOp → EyeballDetector
  | .upd ps ts m => update d ps ts m
  | .rst now => reset d now

/-- Apply a sequence of operations, oldest first. -/
def applyOps (d : EyeballDetector) (ops : List DetOp) : EyeballDetector :=
  ops.foldl applyOp d

/-- Apply a sequence of `update` calls, oldest first. -/
def applyUpdates (d : EyeballDetector)
    (us : List (List Point3 × ℤ × MinimizeResult)) : EyeballDetector :=
  us.foldl (fun s u => update s u.1 u.2.1 u.2.2) d

/-- State of `AffineTransformer` (`AffineTransformer.py`, lines 39–54), over an
arbitrary field `K` (the claims about it are exact-arithmetic statements; the
concrete instances below use `K = ℚ`).  `transform_matrix` is the 3×4 matrix
returned by `cv2.estimateAffine3D`, or `None` when estimation failed. -/
structure AffineTransformer (K : Type) [Field K] where
  scale_factor : K
  success : Bool
  transform_matrix : Option (Matrix (Fin 3) (Fin 4) K)

/-- `AffineTransformer.__init__` (lines 39–54) after the scale factor has been
computed: `estimate` is the outcome of the external `cv2.estimateAffine3D`
call on `(m1_points, scale_factor * m2_points)` — `some M` when `retval` is
true, `none` otherwise.  On success the matrix is stored and `success` is set;
on failure the instance is marked unusable. -/
def mkAffineTransformer {K : Type} [Field K] (scale : K)
    (estimate : Option (Matrix (Fin 3) (Fin 4) K)) : AffineTransformer K :=
  match estimate with
  | some M => { scale_factor := scale, success := true, transform_matrix := some M }
  | none => { scale_factor := scale, success := false, transform_matrix := none }

/-- `np.vstack([self.transform_matrix, [0, 0, 0, 1]])` (line 104): the 4×4
homogeneous extension of the 3×4 affine matrix. -/
def extend4 {K : Type} [Field K] (M : Matrix (Fin 3) (Fin 4) K) :
    Matrix (Fin 4) (Fin 4) K :=
  Matrix.of (Fin.snoc (fun i => M i) (fun j => if j = Fin.last 3 then 1 else 0))

/-- `np.linalg.inv` (line 105) on a 4×4 matrix, as the exact inverse formula
`det⁻¹ • adjugate`; it agrees with `Matrix.inv` and is the true two-sided
inverse exactly when the determinant is nonzero (a singular input would raise
`LinAlgError` in the original — the internal-consistency error of the spec). -/
def matInv {K : Type} [Field K] (A : Matrix (Fin 4) (Fin 4) K) :
    Matrix (Fin 4) (Fin 4) K :=
  (A.det)⁻¹ • A.adjugate

/-- `AffineTransformer.to_m2` (lines 77–91): if construction succeeded, lift
the point to homogeneous coordinates (`np.append(m1_point, 1)`), multiply by
the 3×4 transform and divide every coordinate by `scale_factor`; otherwise
return `None`. -/
def to_m2 {K : Type} [Field K] (t : AffineTransformer K)
    (m1_point : Fin 3 → K) : Option (Fin 3 → K) :=
  if t.success then
    match t.transform_matrix with
    | some M =>
        some (fun i => M.mulVec (Fin.snoc m1_point 1) i / t.scale_factor)
    | none => none
  else none

/-- `AffineTransformer.to_m1` (lines 93–112): if construction succeeded, scale
the point by `scale_factor`, lift to homogeneous coordinates, multiply by the
inverse of the 4×4 homogeneous extension, and de-homogenize (first three
coordinates divided by the fourth); otherwise return `None`. -/
def to_m1 {K : Type} [Field K] (t : AffineTransformer K)
    (m2_point : Fin 3 → K) : Option (Fin 3 → K) :=
  if t.success then
    match t.transform_matrix with
    | some M =>
        let inverse_affine := matInv (extend4 M)
        let m2h : Fin 4 → K := Fin.snoc (fun i => m2_point i * t.scale_factor) 1
        let m1h := inverse_affine.mulVec m2h
        some (fun i => m1h i.castSucc / m1h (Fin.last 3))
    | none => none
  else none

/-- Coordinatewise difference of two 3D real points. -/
def sub3 (a b : ℝ × ℝ × ℝ) : ℝ × ℝ × ℝ :=
  (a.1 - b.1, a.2.1 - b.2.1, a.2.2 - b.2.2)

/-- `np.linalg.norm` of a 3D real vector. -/
noncomputable def norm3 (v : ℝ × ℝ × ℝ) : ℝ :=
  Real.sqrt (v.1 ^ 2 + v.2.1 ^ 2 + v.2.2 ^ 2)

/-- `AffineTransformer._get_scale_factor` (lines 56–75): the reference widths
and heights of both models are Euclidean distances between the two points of
each pair, and the result is the mean of the two width/height ratios.  The
divisions are performed unconditionally — there is no validation and no error
path (over `ℝ` in Lean, division by zero yields `0`; in the original's
floating point it yields `inf`/`nan` with only a runtime warning). -/
noncomputable def get_scale_factor
    (m1_hor_points m1_ver_points m2_hor_points m2_ver_points :
      (ℝ × ℝ × ℝ) × (ℝ × ℝ × ℝ)) : ℝ :=
  let m1_width := norm3 (sub3 m1_hor_points.1 m1_hor_points.2)
  let m1_height := norm3 (sub3 m1_ver_points.1 m1_ver_points.2)
  let m2_width := norm3 (sub3 m2_hor_points.1 m2_hor_points.2)
  let m2_height := norm3 (sub3 m2_ver_points.1 m2_ver_points.2)
  let scale_width := m1_width / m2_width
  let scale_height := m1_height / m2_height
  (scale_width + scale_height) / 2

/-- Origin point, used in the concrete runs below. -/
def p0 : Point3 := (0, 0, 0)

/-- A solver result representing a perfect fit at the origin with radius
`0.02`: the radius is within bounds and the residual is `0`, so the computed
confidence is `1`. -/
def mres1 : MinimizeResult := ⟨0, 0, 0, 1 / 50, 0⟩

/-- A detector with the default thresholds except `points_threshold = 1`
(so a single point triggers fitting), created at time `0`. -/
def d0c : EyeballDetector :=
  initDetector p0 (1 / 50) (995 / 1000) (997 / 1000) 1 400 10000 0

/-- A detector with the default thresholds except `points_history_size = 2`,
created at time `0`. -/
def d3c : EyeballDetector :=
  initDetector p0 (1 / 50) (995 / 1000) (997 / 1000) 300 2 10000 0

/-- A concrete 3×4 affine matrix (the identity linear part with zero
translation), used in the round-trip witness. -/
def M0 : Matrix (Fin 3) (Fin 4) ℚ :=
  Matrix.of fun i j => if (i : ℕ) = (j : ℕ) then 1 else 0

/-- A concrete input point for the round-trip witness. -/
def pW : Fin 3 → ℚ := fun i => (i.val : ℚ)

/- ------------------------------------------------------------------ -/
/- Helper lemmas about the detector state machine                      -/
/- ------------------------------------------------------------------ -/

lemma appendPoints_eye_radius (d : EyeballDetector) (ps : List Point3) :
    (appendPoints d ps).eye_radius = d.eye_radius := by
  cases h : d.points_for_eye_center <;> simp [appendPoints, h]

lemma appendPoints_conf (d : EyeballDetector) (ps : List Point3) :
    (appendPoints d ps).current_confidence = d.current_confidence := by
  cases h : d.points_for_eye_center <;> simp [appendPoints, h]

lemma appendPoints_cd (d : EyeballDetector) (ps : List Point3) :
    (appendPoints d ps).center_detected = d.center_detected := by
  cases h : d.points_for_eye_center <;> simp [appendPoints, h]

lemma appendPoints_sc (d : EyeballDetector) (ps : List Point3) :
    (appendPoints d ps).search_completed = d.search_completed := by
  cases h : d.points_for_eye_center <;> simp [appendPoints, h]

lemma appendPoints_minc (d : EyeballDetector) (ps : List Point3) :
    (appendPoints d ps).min_confidence = d.min_confidence := by
  cases h : d.points_for_eye_center <;> simp [appendPoints, h]

lemma appendPoints_reasc (d : EyeballDetector) (ps : List Point3) :
    (appendPoints d ps).reasonable_confidence = d.reasonable_confidence := by
  cases h : d.points_for_eye_center <;> simp [appendPoints, h]

lemma staleCheck_eye_radius (d : EyeballDetector) (ts : ℤ) :
    (staleCheck d ts).eye_radius = d.eye_radius := by
  unfold staleCheck; split <;> rfl

lemma staleCheck_conf (d : EyeballDetector) (ts : ℤ) :
    (staleCheck d ts).current_confidence = d.current_confidence := by
  unfold staleCheck; split <;> rfl

lemma staleCheck_cd (d : EyeballDetector) (ts : ℤ) :
    (staleCheck d ts).center_detected = d.center_detected := by
  unfold staleCheck; split <;> rfl

lemma staleCheck_buffer (d : EyeballDetector) (ts : ℤ) :
    (staleCheck d ts).points_for_eye_center = d.points_for_eye_center := by
  unfold staleCheck; split <;> rfl

lemma staleCheck_sc_imp (d : EyeballDetector) (ts : ℤ) :
    (staleCheck d ts).search_completed = true → d.search_completed = true := by
  unfold staleCheck; split
  · intro h; exact absurd h (by simp)
  · exact fun h => h

lemma tryImprove_eye_radius (d : EyeballDetector) (ts : ℤ) (m : MinimizeResult) :
    (tryImprove d ts m).eye_radius = d.eye_radius ∨
      (3 / 200 ≤ (tryImprove d ts m).eye_radius ∧
        (tryImprove d ts m).eye_radius ≤ 1 / 40) := by
  unfold tryImprove
  cases h : solveForSphere defaultRadiusBounds m with
  | none => left; simp [h]
  | some v =>
      obtain ⟨c, r, conf⟩ := v
      have hb : 3 / 200 ≤ r ∧ r ≤ 1 / 40 := by
        unfold solveForSphere defaultRadiusBounds at h
        split at h
        · rename_i hcond
          simp only [Option.some.injEq, Prod.mk.injEq] at h
          obtain ⟨-, hr, -⟩ := h
          exact ⟨hr ▸ hcond.1, hr ▸ hcond.2⟩
        · exact absurd h (by simp)
      simp only [h]
      split
      · right; exact hb
      · left; rfl

lemma tryImprove_conf (d : EyeballDetector) (ts : ℤ) (m : MinimizeResult) :
    (tryImprove d ts m).current_confidence = d.current_confidence ∨
      d.current_confidence < (tryImprove d ts m).current_confidence := by
  unfold tryImprove
  cases h : solveForSphere defaultRadiusBounds m with
  | none => left; simp [h]
  | some v =>
      obtain ⟨c, r, conf⟩ := v
      simp only [h]
      split
      · rename_i hc; right; exact hc.2
      · left; rfl

lemma tryImprove_buffer (d : EyeballDetector) (ts : ℤ) (m : MinimizeResult) :
    (tryImprove d ts m).points_for_eye_center = d.points_for_eye_center := by
  unfold tryImprove
  cases h : solveForSphere defaultRadiusBounds m with
  | none => simp [h]
  | some v =>
      obtain ⟨c, r, conf⟩ := v
      simp only [h]
      split <;> rfl

lemma tryImprove_sc_imp_cd (d : EyeballDetector) (ts : ℤ) (m : MinimizeResult)
    (hord : d.min_confidence ≤ d.reasonable_confidence)
    (hinv : d.search_completed = true → d.center_detected = true) :
    (tryImprove d ts m).search_completed = true →
      (tryImprove d ts m).center_detected = true := by
  unfold tryImprove
  cases h : solveForSphere defaultRadiusBounds m with
  | none => simp only [h]; exact hinv
  | some v =>
      obtain ⟨c, r, conf⟩ := v
      simp only [h]
      split
      · intro hsc
        simp only at hsc ⊢
        by_cases hm : d.min_confidence ≤ conf
        · simp [hm]
        · simp only [if_neg hm]
          by_cases hr : d.reasonable_confidence ≤ conf
          · exact absurd (le_trans hord hr) hm
          · simp only [if_neg hr] at hsc
            simp [hinv hsc]
      · exact hinv

lemma update_buffer (d : EyeballDetector) (ps : List Point3) (ts : ℤ)
    (m : MinimizeResult) :
    (update d ps ts m).points_for_eye_center =
      (appendPoints d ps).points_for_eye_center := by
  unfold update
  split
  · rw [staleCheck_buffer, tryImprove_buffer]
  · rfl

lemma update_eye_radius (d : EyeballDetector) (ps : List Point3) (ts : ℤ)
    (m : MinimizeResult) :
    (update d ps ts m).eye_radius = d.eye_radius ∨
      (3 / 200 ≤ (update d ps ts m).eye_radius ∧
        (update d ps ts m).eye_radius ≤ 1 / 40) := by
  unfold update
  split
  · rw [staleCheck_eye_radius]
    rcases tryImprove_eye_radius (appendPoints d ps) ts m with h | h
    · left; rw [h, appendPoints_eye_radius]
    · right; exact h
  · left; exact appendPoints_eye_radius d ps

lemma update_conf (d : EyeballDetector) (ps : List Point3) (ts : ℤ)
    (m : MinimizeResult) :
    (update d ps ts m).current_confidence = d.current_confidence ∨
      d.current_confidence < (update d ps ts m).current_confidence := by
  unfold update
  split
  · rw [staleCheck_conf]
    rcases tryImprove_conf (appendPoints d ps) ts m with h | h
    · left; rw [h, appendPoints_conf]
    · right; rw [appendPoints_conf] at h; exact h
  · left; exact appendPoints_conf d ps

lemma update_conf_le (d : EyeballDetector) (ps : List Point3) (ts : ℤ)
    (m : MinimizeResult) :
    d.current_confidence ≤ (update d ps ts m).current_confidence := by
  rcases update_conf d ps ts m with h | h
  · exact le_of_eq h.symm
  · exact le_of_lt h

lemma applyUpdates_conf_le (d : EyeballDetector)
    (us : List (List Point3 × ℤ × MinimizeResult)) :
    d.current_confidence ≤ (applyUpdates d us).current_confidence := by
  induction us generalizing d with
  | nil => exact le_refl _
  | cons u us ih =>
      exact le_trans (update_conf_le d u.1 u.2.1 u.2.2) (ih _)

lemma radius_invariant (d : EyeballDetector)
    (h1 : 3 / 200 ≤ d.eye_radius) (h2 : d.eye_radius ≤ 1 / 40)
    (ops : List DetOp) :
    3 / 200 ≤ (applyOps d ops).eye_radius ∧
      (applyOps d ops).eye_radius ≤ 1 / 40 := by
  induction ops generalizing d with
  | nil => exact ⟨h1, h2⟩
  | cons op ops ih =>
      have hstep : 3 / 200 ≤ (applyOp d op).eye_radius ∧
          (applyOp d op).eye_radius ≤ 1 / 40 := by
        cases op with
        | upd ps ts m =>
            rcases update_eye_radius d ps ts m with h | h
            · exact ⟨h ▸ h1, h ▸ h2⟩
            · exact h
        | rst now => exact ⟨h1, h2⟩
      exact ih _ hstep.1 hstep.2

lemma lastSlice_of_le {α : Type} (n : ℕ) (l : List α) (h : l.length ≤ n) :
    lastSlice n l = l := by
  unfold lastSlice
  split
  · rfl
  · rw [Nat.sub_eq_zero_of_le h, List.drop_zero]

lemma extend4_mulVec {K : Type} [Field K] (M : Matrix (Fin 3) (Fin 4) K)
    (w : Fin 4 → K) :
    (extend4 M).mulVec w = Fin.snoc (M.mulVec w) (w (Fin.last 3)) := by
  funext j
  refine Fin.lastCases ?_ (fun i => ?_) j
  · rw [Fin.snoc_last]
    simp only [Matrix.mulVec, Matrix.dotProduct, extend4, Matrix.of_apply,
      Fin.snoc_last]
    simp [ite_mul, Finset.sum_ite_eq']
  · rw [Fin.snoc_castSucc]
    simp only [Matrix.mulVec, Matrix.dotProduct, extend4, Matrix.of_apply,
      Fin.snoc_castSucc]

lemma extend4_M0 : extend4 M0 = (1 : Matrix (Fin 4) (Fin 4) ℚ) := by
  funext i j
  fin_cases i <;> fin_cases j <;> decide

lemma matInv_one : matInv (1 : Matrix (Fin 4) (Fin 4) ℚ) = 1 := by
  simp [matInv]

/- ------------------------------------------------------------------ -/
/- Claim theorems                                                      -/
/- ------------------------------------------------------------------ -/

/-- C1: the claim says that whenever `timestamp - last_update_time >
refresh_time_threshold` holds at the time of an `update` call,
`search_completed` is false afterwards — in particular also when
`search_completed` was true before the call.  The code violates this: the
staleness check sits inside the `if len(...) >= points_threshold and not
search_completed` block, so a locked detector never reaches it.  Concretely:
a detector locks (confidence 1) at time 5 with `refresh_time_threshold =
10000`, and an `update` at time `99999` — far beyond the threshold — leaves
`search_completed` true. -/
theorem c1_stale_lock_never_unlocks :
    (update (update d0c [p0] 5 mres1) [] 99999 mres1).search_completed = true ∧
    (update d0c [p0] 5 mres1).search_completed = true ∧
    (update d0c [p0] 5 mres1).refresh_time_threshold <
      99999 - (update d0c [p0] 5 mres1).last_update_time := by
  norm_num [d0c, d3c, initDetector, p0, mres1, update, appendPoints, tryImprove, solveForSphere, staleCheck, defaultRadiusBounds, lastSlice, applyOps, applyOp, reset]

/-- C2: `current_confidence` is monotone under `update` — every single call
either leaves it unchanged or strictly increases it, any sequence of calls
never decreases it — and `reset` sets it to `0` (the only way it is ever
lowered; the staleness rollback inside `update` never touches it, as the
per-call disjunction shows). -/
theorem c2_confidence_monotone :
    (∀ (d : EyeballDetector) (ps : List Point3) (ts : ℤ) (m : MinimizeResult),
        (update d ps ts m).current_confidence = d.current_confidence ∨
          d.current_confidence < (update d ps ts m).current_confidence) ∧
    (∀ (d : EyeballDetector) (us : List (List Point3 × ℤ × MinimizeResult)),
        d.current_confidence ≤ (applyUpdates d us).current_confidence) ∧
    (∀ (d : EyeballDetector) (now : ℤ),
        (reset d now).current_confidence = 0) :=
  ⟨update_conf, applyUpdates_conf_le, fun _ _ => rfl⟩

/-- C3: the claim says the buffer never holds more than `points_history_size`
entries, including on the very first call.  The code violates this: the first
call (buffer still `None`) stores `new_points` verbatim without the
`[-points_history_size:]` truncation.  Concretely: with
`points_history_size = 2`, a first `update` carrying 3 points leaves a buffer
of length 3. -/
theorem c3_first_call_exceeds_capacity :
    ((update d3c [p0, (1, 0, 0), (2, 0, 0)] 1 mres1).points_for_eye_center.getD
        []).length = 3 ∧
    (update d3c [p0, (1, 0, 0), (2, 0, 0)] 1 mres1).points_history_size = 2 := by
  norm_num [d0c, d3c, initDetector, p0, mres1, update, appendPoints, tryImprove, solveForSphere, staleCheck, defaultRadiusBounds, lastSlice, applyOps, applyOp, reset]

/-- C5: for a detector configured with `min_confidence ≤
reasonable_confidence`, the implication `search_completed → center_detected`
is an invariant: it holds after construction, and it is preserved by every
`update` and every `reset`. -/
theorem c5_search_completed_implies_center_detected (d : EyeballDetector)
    (hord : d.min_confidence ≤ d.reasonable_confidence)
    (hinv : d.search_completed = true → d.center_detected = true) :
    (∀ (ps : List Point3) (ts : ℤ) (m : MinimizeResult),
        (update d ps ts m).search_completed = true →
          (update d ps ts m).center_detected = true) ∧
    (∀ now : ℤ, (reset d now).search_completed = true →
        (reset d now).center_detected = true) ∧
    (∀ (c : Point3) (r mc rc : ℚ) (pt ph : ℕ) (rt now : ℤ),
        (initDetector c r mc rc pt ph rt now).search_completed = true →
          (initDetector c r mc rc pt ph rt now).center_detected = true) := by
  refine ⟨?_, ?_, ?_⟩
  · intro ps ts m
    unfold update
    split
    · intro hsc
      have hsc' := staleCheck_sc_imp _ _ hsc
      rw [staleCheck_cd]
      refine tryImprove_sc_imp_cd (appendPoints d ps) ts m ?_ ?_ hsc'
      · rw [appendPoints_minc, appendPoints_reasc]; exact hord
      · rw [appendPoints_sc, appendPoints_cd]; exact hinv
    · rw [appendPoints_sc, appendPoints_cd]; exact hinv
  · intro now h
    exact absurd h (by simp [reset])
  · intro c r mc rc pt ph rt now h
    exact absurd h (by simp [initDetector])

/-- Witness for C5 at concrete inputs: the default-configured detector `d0c`
satisfies the hypotheses, and after an `update` that locks the search
(`search_completed` becomes true) the invariant forces `center_detected`. -/
theorem c5_witness :
    (update d0c [p0] 5 mres1).center_detected = true :=
  (c5_search_completed_implies_center_detected d0c (by norm_num [d0c, initDetector])
    (by simp [d0c, initDetector])).1 [p0] 5 mres1
    (by norm_num [d0c, initDetector, p0, mres1, update, appendPoints,
      tryImprove, solveForSphere, staleCheck, defaultRadiusBounds, lastSlice])

/-- C7 counterexample: the claim says an empty `update` leaves the buffer's
contents unchanged in every state.  In the (reachable) state produced by a
first call carrying more points than `points_history_size`, an empty update
truncates the buffer to the most recent `points_history_size` entries, so the
contents change. -/
theorem c7_counterexample :
    (update (update d3c [p0, (1, 0, 0), (2, 0, 0)] 1 mres1) [] 2
        mres1).points_for_eye_center ≠
      (update d3c [p0, (1, 0, 0), (2, 0, 0)] 1 mres1).points_for_eye_center := by
  norm_num [d0c, d3c, initDetector, p0, mres1, update, appendPoints, tryImprove, solveForSphere, staleCheck, defaultRadiusBounds, lastSlice, applyOps, applyOp, reset]

/-- C7 (amended): for every state whose buffer holds at most
`points_history_size` entries — and for every state with no buffer yet — an
`update` with empty `new_points` is a no-op append: the buffer's contents are
unchanged (an absent buffer becomes the empty buffer), and, the embedding
being total, nothing is thrown and there is no other recoverable error path
in `update`.  In states whose buffer exceeds `points_history_size` the no-op
guarantee can fail: see the counterexample, where an empty update shrinks the
buffer. -/
theorem c7_empty_update_preserves_buffer (d : EyeballDetector) (ts : ℤ)
    (m : MinimizeResult) :
    (∀ l : List Point3, d.points_for_eye_center = some l →
        l.length ≤ d.points_history_size →
          (update d [] ts m).points_for_eye_center = some l) ∧
    (d.points_for_eye_center = none →
        (update d [] ts m).points_for_eye_center = some []) := by
  constructor
  · intro l hl hlen
    rw [update_buffer]
    simp only [appendPoints, hl, List.append_nil]
    rw [lastSlice_of_le _ _ hlen]
  · intro hl
    rw [update_buffer]
    simp [appendPoints, hl]

/-- Witness for C7 at concrete inputs: a detector holding one buffered point
(capacity 400) keeps exactly that buffer across an empty update. -/
theorem c7_witness :
    (update (update d0c [p0] 5 mres1) [] 6 mres1).points_for_eye_center =
      some [p0] :=
  (c7_empty_update_preserves_buffer (update d0c [p0] 5 mres1) 6 mres1).1 [p0]
    (by norm_num [d0c, d3c, initDetector, p0, mres1, update, appendPoints, tryImprove, solveForSphere, staleCheck, defaultRadiusBounds, lastSlice, applyOps, applyOp, reset])
    (by norm_num [d0c, d3c, initDetector, p0, mres1, update, appendPoints, tryImprove, solveForSphere, staleCheck, defaultRadiusBounds, lastSlice, applyOps, applyOp, reset])

/-- C9: `reset` clears the buffer, zeroes the confidence, clears both flags
and stamps `last_update_time` with the current time, while leaving
`eye_center`, `eye_radius` and every configuration field unchanged. -/
theorem c9_reset_frame (d : EyeballDetector) (now : ℤ) :
    (reset d now).points_for_eye_center = none ∧
    (reset d now).current_confidence = 0 ∧
    (reset d now).center_detected = false ∧
    (reset d now).search_completed = false ∧
    (reset d now).last_update_time = now ∧
    (reset d now).eye_center = d.eye_center ∧
    (reset d now).eye_radius = d.eye_radius ∧
    (reset d now).min_confidence = d.min_confidence ∧
    (reset d now).reasonable_confidence = d.reasonable_confidence ∧
    (reset d now).points_threshold = d.points_threshold ∧
    (reset d now).points_history_size = d.points_history_size ∧
    (reset d now).refresh_time_threshold = d.refresh_time_threshold :=
  ⟨rfl, rfl, rfl, rfl, rfl, rfl, rfl, rfl, rfl, rfl, rfl, rfl⟩

/-- C10: a detector constructed with an initial radius inside
`[0.015, 0.025]` keeps `eye_radius` inside that interval across every
sequence of `update` and `reset` calls: `update` only ever installs a solver
radius that passed the `radius_bounds` check, and `reset` leaves the radius
untouched. -/
theorem c10_eye_radius_bounded (c : Point3) (r mc rc : ℚ) (pt ph : ℕ)
    (rt now : ℤ) (h1 : 3 / 200 ≤ r) (h2 : r ≤ 1 / 40) (ops : List DetOp) :
    3 / 200 ≤ (applyOps (initDetector c r mc rc pt ph rt now) ops).eye_radius ∧
      (applyOps (initDetector c r mc rc pt ph rt now) ops).eye_radius ≤
        1 / 40 :=
  radius_invariant _ h1 h2 ops

/-- Witness for C10 at concrete inputs: the default radius `0.02` stays in
bounds across an update followed by a reset. -/
theorem c10_witness :
    3 / 200 ≤ (applyOps (initDetector p0 (1 / 50) (995 / 1000) (997 / 1000) 1
        400 10000 0) [DetOp.upd [p0] 5 mres1, DetOp.rst 9]).eye_radius ∧
      (applyOps (initDetector p0 (1 / 50) (995 / 1000) (997 / 1000) 1 400
        10000 0) [DetOp.upd [p0] 5 mres1, DetOp.rst 9]).eye_radius ≤ 1 / 40 :=
  c10_eye_radius_bounded p0 (1 / 50) (995 / 1000) (997 / 1000) 1 400 10000 0
    (by norm_num) (by norm_num) [DetOp.upd [p0] 5 mres1, DetOp.rst 9]

/-- C4: for a successfully constructed transformer (nonzero scale factor and
an affine matrix whose 4×4 homogeneous extension is invertible — both
guaranteed by construction for non-degenerate inputs, per the spec), the
round trip `to_m1 (to_m2 p)` is the identity, exactly, over any field:
homogenize, multiply by the 3×4 transform, divide by `scale_factor`, then
multiply by `scale_factor`, homogenize, apply the inverse of the 4×4
extension and de-homogenize, recovers `p`. -/
theorem c4_round_trip {K : Type} [Field K] (s : K)
    (M : Matrix (Fin 3) (Fin 4) K) (hs : s ≠ 0)
    (hinv : matInv (extend4 M) * extend4 M = 1) (p : Fin 3 → K) :
    (to_m2 (mkAffineTransformer s (some M)) p).bind
      (to_m1 (mkAffineTransformer s (some M))) = some p := by
  have h2 : to_m2 (mkAffineTransformer s (some M)) p
      = some (fun i => M.mulVec (Fin.snoc p 1) i / s) := by
    simp [to_m2, mkAffineTransformer]
  rw [h2]
  simp only [to_m1, mkAffineTransformer, Option.some_bind, if_true]
  have key : (Fin.snoc (fun i => M.mulVec (Fin.snoc p 1) i / s * s) 1 :
      Fin 4 → K) = (extend4 M).mulVec (Fin.snoc p 1) := by
    have harg : (fun i => M.mulVec (Fin.snoc p 1) i / s * s)
        = M.mulVec (Fin.snoc p 1) := by
      funext i
      exact div_mul_cancel₀ _ hs
    rw [harg, extend4_mulVec, Fin.snoc_last]
  rw [key, Matrix.mulVec_mulVec, hinv, Matrix.one_mulVec]
  congr 1
  funext i
  rw [Fin.snoc_castSucc, Fin.snoc_last, div_one]

/-- Witness for C4 at concrete inputs: scale factor `2`, the identity affine
matrix `M0` (whose extension is the identity, hence invertible) and the point
`(0, 1, 2)`. -/
theorem c4_witness :
    (to_m2 (mkAffineTransformer (2 : ℚ) (some M0)) pW).bind
      (to_m1 (mkAffineTransformer (2 : ℚ) (some M0))) = some pW :=
  c4_round_trip 2 M0 (by norm_num) (by rw [extend4_M0, matInv_one, one_mul]) pW

/-- C6: a transformer whose transform estimation failed at construction
(`estimateAffine3D` returned no matrix, so `success` is false) is permanently
unusable — `to_m2` and `to_m1` return `None` for every input point, and (the
embedding being total) nothing is thrown. -/
theorem c6_failed_unusable {K : Type} [Field K] (s : K)
    (t : AffineTransformer K) (h : t.success = false) (p q : Fin 3 → K) :
    (mkAffineTransformer s (none : Option (Matrix (Fin 3) (Fin 4) K))).success
        = false ∧
    to_m2 t p = none ∧ to_m1 t q = none := by
  refine ⟨rfl, ?_, ?_⟩ <;> simp [to_m2, to_m1, h]

/-- Witness for C6 at concrete inputs: a failed construction over `ℚ` maps
the origin to `None` in both directions. -/
theorem c6_witness :
    (mkAffineTransformer (1 : ℚ)
        (none : Option (Matrix (Fin 3) (Fin 4) ℚ))).success = false ∧
    to_m2 (mkAffineTransformer (1 : ℚ) none) (fun _ => 0) = none ∧
    to_m1 (mkAffineTransformer (1 : ℚ) none) (fun _ => 0) = none :=
  c6_failed_unusable 1 (mkAffineTransformer 1 none) rfl (fun _ => 0)
    (fun _ => 0)

/-- C8: the claim says the implementation validates reference segments before
dividing and surfaces an error on a zero-length model-space segment.  The
code does not: `_get_scale_factor` divides unconditionally and returns a
plain number.  At an input whose model-space (`m2`) horizontal and vertical
pairs are both degenerate (equal endpoints, hence zero-length segments), the
divisions by zero are performed and the function returns `0` (Lean's
exact-arithmetic convention for division by zero; the original's floating
point yields `inf`/`nan`, silently propagated into `scale_factor`). -/
theorem c8_degenerate_scale_not_validated :
    get_scale_factor ((0, 0, 0), (3, 4, 0)) ((0, 0, 0), (0, 0, 2))
      ((1, 1, 1), (1, 1, 1)) ((2, 0, 1), (2, 0, 1)) = 0 := by
  norm_num [get_scale_factor, norm3, sub3]

end LaserGaze
